import Mathlib

/- Verification development for the Quiz repository (quiz.py, quiz1.py,
quiz3.py, quiz5.py). The repository parses generated text into structured
multiple-choice items and runs a timed interactive quiz session. Python
strings are modelled as Lean strings; the Python string operations used by
the source are re-implemented below with structural recursion so that every
definition is executable and kernel-reducible. -/

/-- Python str.strip removes these whitespace characters (ASCII range). -/
def pyIsSpace (c : Char) : Bool :=
  c = ' ' || c = '\t' || c = '\n' || c = '\r' || c = '\x0b' || c = '\x0c'

/-- Strip leading and trailing whitespace from a character list. -/
def pyStripList (l : List Char) : List Char :=
  ((l.dropWhile pyIsSpace).reverse.dropWhile pyIsSpace).reverse

/-- Python s.strip() on strings. -/
def pyStrip (s : String) : String := (pyStripList s.toList).asString

/-- Python s.upper() restricted to ASCII case mapping. -/
def pyUpper (s : String) : String := (s.toList.map Char.toUpper).asString

/-- Python s.lower() restricted to ASCII case mapping. -/
def pyLower (s : String) : String := (s.toList.map Char.toLower).asString

/-- Python s[n:] character slicing. -/
def pySliceFrom (s : String) (n : Nat) : String := (s.toList.drop n).asString

/-- Split a character list on every occurrence of one separator character,
matching Python s.split(sep) for a one-character separator. -/
def splitChar (c : Char) : List Char → List (List Char)
  | [] => [[]]
  | x :: rest =>
    if x = c then [] :: splitChar c rest
    else
      match splitChar c rest with
      | [] => [[x]]
      | h :: t => (x :: h) :: t

/-- Locate the first occurrence of a nonempty separator in a character list,
returning the piece before it and the remainder after it. Returns none when
the separator does not occur. -/
def splitFirst (sep : List Char) : List Char → Option (List Char × List Char)
  | [] => none
  | c :: rest =>
    if sep.isPrefixOf (c :: rest) then some ([], (c :: rest).drop sep.length)
    else
      match splitFirst sep rest with
      | some (pre, post) => some (c :: pre, post)
      | none => none

/-- Python line.split(sep)[1]: the piece between the first and the second
occurrence of sep (to the end when sep occurs only once). Returns none when
sep does not occur at all, in which case the Python indexing raises
IndexError and the source rejects the whole candidate. -/
def splitSecond (sep line : String) : Option String :=
  match splitFirst sep.toList line.toList with
  | none => none
  | some (_, post) =>
    match splitFirst sep.toList post with
    | none => some post.asString
    | some (mid, _) => some mid.asString

/-- Python s.replace(pat, "") for a nonempty pattern, removing every
occurrence. The fuel argument bounds the scan; the wrapper passes one more
than the length of the input, which always suffices since each step consumes
at least one character. -/
def pyReplaceAux (pat : List Char) : Nat → List Char → List Char
  | 0, l => l
  | _ + 1, [] => []
  | fuel + 1, c :: rest =>
    if pat ≠ [] ∧ pat.isPrefixOf (c :: rest) then
      pyReplaceAux pat fuel ((c :: rest).drop pat.length)
    else c :: pyReplaceAux pat fuel rest

/-- Python s.replace(pat, "") on strings. -/
def pyReplace (s pat : String) : String :=
  (pyReplaceAux pat.toList (s.toList.length + 1) s.toList).asString

/-- Python s.startswith(pre). -/
def pyStartsWith (s pre : String) : Bool := pre.toList.isPrefixOf s.toList

/-- Python parts.index(x, start) on a list of lines: index of the first
occurrence at position start or later; none models the ValueError that the
source catches by rejecting the candidate. -/
def pyListIndexFrom (parts : List String) (x : String) (start : Nat) : Option Nat :=
  match (parts.drop start).findIdx? (fun p => p = x) with
  | some j => some (start + j)
  | none => none

/-- One structured multiple-choice question as built by generate_quiz. The
code field is the empty string for the variants without code snippets
(quiz.py and quiz1.py build no code entry; it is modelled as the empty
sentinel the design document describes). -/
structure QuizItem where
  question : String
  code : String
  options : List (String × String)
  correct : String
  explanation : String
  deriving DecidableEq

/-- One entry of the answers list built by run_quiz for each question. -/
structure AnswerRecord where
  question_num : Nat
  user_answer : String
  correct_answer : String
  explanation : String
  deriving DecidableEq

/-- Candidate lines in quiz.py generate_quiz: q.strip().split chr(10), with
no per-line stripping and no removal of empty lines. -/
def linesOf (q : String) : List String :=
  (splitChar '\n' (pyStrip q).toList).map List.asString

/-- Candidate lines in quiz1.py generate_quiz: each line stripped and empty
lines removed. -/
def linesOf1 (q : String) : List String :=
  (((splitChar '\n' (pyStrip q).toList).map pyStripList).filter
    (fun l => l ≠ [])).map List.asString

/-- Per-candidate parsing of quiz.py generate_quiz (lines 60 to 93): fewer
than 7 lines means the candidate is skipped; every field is extracted with
line.split(marker)[1], whose IndexError on a missing marker is caught by the
surrounding try and rejects the whole candidate. -/
def parseCandidate (q : String) : Option QuizItem :=
  if (linesOf q).length < 7 then none
  else
    (splitSecond ". " ((linesOf q).getD 0 "")).bind fun questionText =>
    (splitSecond "A) " ((linesOf q).getD 1 "")).bind fun optA =>
    (splitSecond "B) " ((linesOf q).getD 2 "")).bind fun optB =>
    (splitSecond "C) " ((linesOf q).getD 3 "")).bind fun optC =>
    (splitSecond "D) " ((linesOf q).getD 4 "")).bind fun optD =>
    (splitSecond "Correct: " ((linesOf q).getD 5 "")).bind fun corr =>
    (splitSecond "Explanation: " ((linesOf q).getD 6 "")).map fun expl =>
    { question := pyStrip questionText
      code := ""
      options := [("A", pyStrip optA), ("B", pyStrip optB),
                  ("C", pyStrip optC), ("D", pyStrip optD)]
      correct := pyUpper (pyStrip corr)
      explanation := pyStrip expl }

/-- Per-candidate parsing of quiz1.py generate_quiz (lines 63 to 94): fewer
than 7 nonempty stripped lines means the candidate is skipped; otherwise the
option lines lose their first three characters unchecked, and the correct
and explanation lines have their markers removed by str.replace, which
leaves the line unchanged when the marker is absent. No other rejection is
possible. -/
def parseCandidate1 (q : String) : Option QuizItem :=
  if (linesOf1 q).length < 7 then none
  else
    some { question := (linesOf1 q).getD 0 ""
           code := ""
           options := [("A", pySliceFrom ((linesOf1 q).getD 1 "") 3),
                       ("B", pySliceFrom ((linesOf1 q).getD 2 "") 3),
                       ("C", pySliceFrom ((linesOf1 q).getD 3 "") 3),
                       ("D", pySliceFrom ((linesOf1 q).getD 4 "") 3)]
           correct := pyUpper (pyStrip (pyReplace ((linesOf1 q).getD 5 "") "Correct: "))
           explanation := pyStrip (pyReplace ((linesOf1 q).getD 6 "") "Explanation: ") }

/-- Per-candidate parsing of quiz3.py generate_quiz (lines 61 to 106): fewer
than 6 lines skips the candidate; a fenced code block directly after the
question line is captured up to the closing fence, and field extraction
resumes after it. Any IndexError or ValueError rejects the whole candidate
through the surrounding try. -/
def parseCandidate3 (q : String) : Option QuizItem :=
  if (linesOf q).length < 6 then none
  else
    (splitSecond ". " ((linesOf q).getD 0 "")).bind fun questionText =>
    (if pyStartsWith ((linesOf q).getD 1 "") "```python" then
        (pyListIndexFrom (linesOf q) "```" 2).map fun idx =>
          (String.intercalate "\n" (((linesOf q).drop 1).take idx), idx + 1)
      else some (("", 1) : String × Nat)).bind fun codeStart =>
    (((linesOf q).get? codeStart.2).bind (fun l => splitSecond "A) " l)).bind fun optA =>
    (((linesOf q).get? (codeStart.2 + 1)).bind (fun l => splitSecond "B) " l)).bind fun optB =>
    (((linesOf q).get? (codeStart.2 + 2)).bind (fun l => splitSecond "C) " l)).bind fun optC =>
    (((linesOf q).get? (codeStart.2 + 3)).bind (fun l => splitSecond "D) " l)).bind fun optD =>
    (((linesOf q).get? (codeStart.2 + 4)).bind (fun l => splitSecond "Correct: " l)).bind fun corr =>
    (((linesOf q).get? (codeStart.2 + 5)).bind (fun l => splitSecond "Explanation: " l)).map fun expl =>
    { question := pyStrip questionText
      code := codeStart.1
      options := [("A", pyStrip optA), ("B", pyStrip optB),
                  ("C", pyStrip optC), ("D", pyStrip optD)]
      correct := pyUpper (pyStrip corr)
      explanation := pyStrip expl }

/-- Batch loop shared by generate_quiz in all four files: each raw segment
is parsed inside a try block; a failing candidate is skipped with a printed
message and the loop continues with the next one. The second component
counts the skipped candidates, which the design document calls
rejected_count. -/
def parseLoop (pc : String → Option QuizItem) : List String → List QuizItem × Nat
  | [] => ([], 0)
  | q :: rest =>
    let r := parseLoop pc rest
    match pc q with
    | some item => (item :: r.1, r.2)
    | none => (r.1, r.2 + 1)

/-- Result of the quiz3.py and quiz5.py generate_quiz call. outOfFuel marks
that the self-recursion has not returned within the given recursion budget. -/
inductive GenResult where
  | ok (items : List QuizItem)
  | genFailure
  | outOfFuel
  deriving DecidableEq

/-- quiz3.py generate_quiz (lines 48 to 117): the collaborator text for
attempt k is collab k; empty text raises the generation failure; when fewer
items than requested are parsed the function calls itself again with the
same arguments. The fuel argument bounds the recursion depth of the model;
the source itself has no bound, no attempt counter and no distinct error for
exhaustion. quiz5.py lines 79 to 147 repeat the same recursion. -/
def generateQuiz3Fuel (collab : Nat → String) (numQuestions : Int) :
    Nat → Nat → GenResult
  | _, 0 => .outOfFuel
  | attempt, fuel + 1 =>
    if collab attempt = "" then .genFailure
    else
      if ((parseLoop parseCandidate3
            ((splitChar 'Q' (collab attempt).toList).map List.asString).tail).1.length : Int)
          < numQuestions then
        generateQuiz3Fuel collab numQuestions (attempt + 1) fuel
      else
        .ok (parseLoop parseCandidate3
          ((splitChar 'Q' (collab attempt).toList).map List.asString).tail).1

/-- One event on the operator input channel: a line of text returned by
input(), or a keyboard interrupt raised into the reading thread. The number
is the elapsed second at which the read returns. -/
inductive InputEv where
  | line (s : String)
  | ctrlC
  deriving DecidableEq

/-- Outcome of one question of run_quiz: the loop breaks with an accepted
answer, exits with the recorded answer after the timer flag is observed,
resolves to timeout, is interrupted, or blocks forever waiting for input
that never arrives. -/
inductive GateOutcome where
  | answered (a : String)
  | timeout
  | interrupted
  | hang
  deriving DecidableEq

/-- The per-question race of run_quiz (quiz.py lines 127 to 176): the timer
thread sets the shared flag at the moment the countdown reaches the
duration; the main loop checks the flag, blocks in input(), uppercases and
strips the line, breaks on a valid letter, and otherwise stores the line
and re-prompts. The first argument of the recursion is the elapsed second
at which the loop condition is checked: a read that begins before expiry
still returns its line even when the line arrives after expiry. On exit by
flag, an empty or absent last answer becomes the timeout sentinel and any
other last line is kept as the answer, exactly as the falsy check of the
source does. -/
def gateLoop (duration : Nat) : Nat → Option String → List (Nat × InputEv) → GateOutcome
  | now, last, events =>
    if duration ≤ now then
      match last with
      | none => .timeout
      | some a => if a = "" then .timeout else .answered a
    else
      match events with
      | [] => .hang
      | (_, .ctrlC) :: _ => .interrupted
      | (t, .line s) :: rest =>
        if pyStrip (pyUpper s) ∈ (["A", "B", "C", "D"] : List String) then
          .answered (pyStrip (pyUpper s))
        else gateLoop duration (max now t) (some (pyStrip (pyUpper s))) rest

/-- Result of the question loop of run_quiz before the summary is printed. -/
inductive LoopOut where
  | aborted (presented : Nat)
  | hangs (presented : Nat)
  | done (records : List AnswerRecord) (score : Nat)
  deriving DecidableEq

/-- The question loop of run_quiz (quiz.py lines 120 to 191): questions are
presented strictly in order; a keyboard interrupt returns from run_quiz at
once, discarding the records built so far; otherwise the record is appended
and the score updated before the next question is presented. The presented
count is the one-based index of the question being asked when the loop
stops early. -/
def runLoop (duration : Nat) :
    List QuizItem → List (List (Nat × InputEv)) → Nat → Nat → List AnswerRecord → LoopOut
  | [], _, _, score, recs => .done recs score
  | q :: qs, scripts, i, score, recs =>
    match gateLoop duration 0 none (scripts.headD []) with
    | .interrupted => .aborted i
    | .hang => .hangs i
    | .answered a =>
        runLoop duration qs scripts.tail (i + 1)
          (score + (if a = q.correct then 1 else 0))
          (recs ++ [{ question_num := i, user_answer := a,
                      correct_answer := q.correct, explanation := q.explanation }])
    | .timeout =>
        runLoop duration qs scripts.tail (i + 1)
          (score + (if "TIMEOUT" = q.correct then 1 else 0))
          (recs ++ [{ question_num := i, user_answer := "TIMEOUT",
                      correct_answer := q.correct, explanation := q.explanation }])

/-- The fixed difficulty levels of every QuizAgent constructor. -/
def difficultyLevels : List String := ["beginner", "intermediate", "advanced"]

/-- The static duration table of every QuizAgent constructor. -/
def timeLimits : List (String × Nat) := [("beginner", 30), ("intermediate", 45), ("advanced", 60)]

/-- Percentage computed by run_quiz (quiz.py line 210): score divided by the
requested question count times 100, modelled exactly in the rationals. -/
def percentageOf (score : Nat) (numQuestions : Int) : ℚ :=
  (score : ℚ) / (numQuestions : ℚ) * 100

/-- The four performance branches of run_quiz (quiz.py lines 212 to 231),
labelled with the tier names of the design document. -/
def tierOf (percentage : ℚ) : String :=
  if 90 ≤ percentage then "excellent"
  else if 70 ≤ percentage then "good"
  else if 50 ≤ percentage then "needs practice"
  else "review recommended"

/-- Observable result of run_quiz (quiz.py lines 95 to 231). The generation
call is replaced by its result, the list of parsed questions, since the
generator is modelled separately. A zero requested count reaches the
percentage computation and raises a division error after the score and
feedback are printed; that path is kept distinct. -/
inductive SessionResult where
  | invalidDifficulty
  | noQuestions
  | aborted (presented : Nat)
  | hang (presented : Nat)
  | crashedZeroDivision (records : List AnswerRecord) (score : Nat)
  | finished (records : List AnswerRecord) (score : Nat) (denominator : Int)
      (percentage : ℚ) (tier : String)
  deriving DecidableEq

/-- run_quiz of quiz.py: the difficulty check comes first and returns before
anything else happens; an empty question list returns next; then the
question loop runs with the duration of the level, and the summary uses the
requested count as denominator for both the score line and the percentage. -/
def runQuiz (level : String) (numQuestions : Int) (questions : List QuizItem)
    (scripts : List (List (Nat × InputEv))) : SessionResult :=
  if pyLower level ∈ difficultyLevels then
    if questions.isEmpty then .noQuestions
    else
      match runLoop ((timeLimits.lookup (pyLower level)).getD 0) questions scripts 1 0 [] with
      | .aborted p => .aborted p
      | .hangs p => .hang p
      | .done recs score =>
        if numQuestions = 0 then .crashedZeroDivision recs score
        else .finished recs score numQuestions (percentageOf score numQuestions)
               (tierOf (percentageOf score numQuestions))
  else .invalidDifficulty

/-- Sample item with correct answer A, used by concrete runs. -/
def itemA : QuizItem :=
  { question := "sample", code := "",
    options := [("A", "one"), ("B", "two"), ("C", "three"), ("D", "four")],
    correct := "A", explanation := "because" }

/-- Sample item with correct answer B, used by concrete runs. -/
def itemB : QuizItem :=
  { question := "sample", code := "",
    options := [("A", "one"), ("B", "two"), ("C", "three"), ("D", "four")],
    correct := "B", explanation := "because" }

/-- Records built by a session in which every question is answered with its
own correct letter, starting at the given one-based index. -/
def correctRecords : List QuizItem → Nat → List AnswerRecord
  | [], _ => []
  | q :: qs, i =>
    { question_num := i, user_answer := q.correct,
      correct_answer := q.correct, explanation := q.explanation } :: correctRecords qs (i + 1)

theorem correctRecords_length : ∀ (qs : List QuizItem) (i : Nat),
    (correctRecords qs i).length = qs.length := by
  intro qs
  induction qs with
  | nil => intro i; rfl
  | cons q qs ih => intro i; simp [correctRecords, ih]

theorem parseLoop_spec (pc : String → Option QuizItem) :
    ∀ l : List String,
      parseLoop pc l = (l.filterMap pc, (l.filter (fun c => (pc c).isNone)).length) := by
  intro l
  induction l with
  | nil => rfl
  | cons q rest ih =>
    cases hq : pc q with
    | none => simp [parseLoop, ih, hq, List.filterMap_cons, List.filter_cons]
    | some item => simp [parseLoop, ih, hq, List.filterMap_cons, List.filter_cons]

theorem filterMap_all_some (pc : String → Option QuizItem) :
    ∀ l : List String, (∀ c ∈ l, (pc c).isSome = true) →
      (l.filterMap pc).length = l.length := by
  intro l
  induction l with
  | nil => intro _; rfl
  | cons q rest ih =>
    intro h
    have hq := h q (List.mem_cons_self q rest)
    cases hrq : pc q with
    | none => rw [hrq] at hq; cases hq
    | some item =>
      have hrest := ih (fun c hc => h c (List.mem_cons_of_mem q hc))
      simp [List.filterMap_cons, hrq, hrest]

theorem filter_none_nil (pc : String → Option QuizItem) :
    ∀ l : List String, (∀ c ∈ l, (pc c).isSome = true) →
      l.filter (fun c => (pc c).isNone) = [] := by
  intro l
  induction l with
  | nil => intro _; rfl
  | cons q rest ih =>
    intro h
    have hq := h q (List.mem_cons_self q rest)
    rw [List.filter_cons]
    rw [if_neg (by simp [Option.isNone_iff_eq_none]; exact Option.isSome_iff_ne_none.mp hq)]
    exact ih (fun c hc => h c (List.mem_cons_of_mem q hc))

theorem parseCandidate_some_spec (q : String) (item : QuizItem)
    (h : parseCandidate q = some item) :
    7 ≤ (linesOf q).length ∧
    ∃ qt optA optB optC optD corr expl,
      splitSecond ". " ((linesOf q).getD 0 "") = some qt ∧
      splitSecond "A) " ((linesOf q).getD 1 "") = some optA ∧
      splitSecond "B) " ((linesOf q).getD 2 "") = some optB ∧
      splitSecond "C) " ((linesOf q).getD 3 "") = some optC ∧
      splitSecond "D) " ((linesOf q).getD 4 "") = some optD ∧
      splitSecond "Correct: " ((linesOf q).getD 5 "") = some corr ∧
      splitSecond "Explanation: " ((linesOf q).getD 6 "") = some expl ∧
      item = { question := pyStrip qt, code := "",
               options := [("A", pyStrip optA), ("B", pyStrip optB),
                           ("C", pyStrip optC), ("D", pyStrip optD)],
               correct := pyUpper (pyStrip corr),
               explanation := pyStrip expl } := by
  unfold parseCandidate at h
  by_cases hlen : (linesOf q).length < 7
  · rw [if_pos hlen] at h; cases h
  · rw [if_neg hlen] at h
    simp only [Option.bind_eq_some, Option.map_eq_some'] at h
    obtain ⟨qt, e0, optA, e1, optB, e2, optC, e3, optD, e4, corr, e5, expl, e6, hitem⟩ := h
    exact ⟨by omega, qt, optA, optB, optC, optD, corr, expl,
      e0, e1, e2, e3, e4, e5, e6, hitem.symm⟩

theorem upper_strip_id_of_choice (c : String)
    (hc : c ∈ (["A", "B", "C", "D"] : List String)) :
    pyStrip (pyUpper c) = c := by
  simp only [List.mem_cons, List.not_mem_nil, or_false] at hc
  rcases hc with rfl | rfl | rfl | rfl <;> decide

theorem gateLoop_first_valid (d : Nat) (hd : 0 < d) (c : String)
    (hc : c ∈ (["A", "B", "C", "D"] : List String)) :
    gateLoop d 0 none [(0, InputEv.line c)] = GateOutcome.answered c := by
  rw [gateLoop, if_neg (by omega)]
  simp only [upper_strip_id_of_choice c hc]
  rw [if_pos hc]

theorem gateLoop_first_ctrlC (d : Nat) (hd : 0 < d) (t : Nat)
    (rest : List (Nat × InputEv)) :
    gateLoop d 0 none ((t, InputEv.ctrlC) :: rest) = GateOutcome.interrupted := by
  rw [gateLoop, if_neg (by omega)]

theorem runLoop_all_correct (d : Nat) (hd : 0 < d) :
    ∀ (qs : List QuizItem) (i score : Nat) (recs : List AnswerRecord),
      (∀ q ∈ qs, q.correct ∈ (["A", "B", "C", "D"] : List String)) →
      runLoop d qs (qs.map fun q => [(0, InputEv.line q.correct)]) i score recs
        = .done (recs ++ correctRecords qs i) (score + qs.length) := by
  intro qs
  induction qs with
  | nil => intro i score recs _; simp [runLoop, correctRecords]
  | cons q qs ih =>
    intro i score recs hall
    have hq := hall q (List.mem_cons_self q qs)
    rw [List.map_cons, runLoop]
    simp only [List.headD_cons, List.tail_cons]
    rw [gateLoop_first_valid d hd q.correct hq]
    simp only [eq_self_iff_true, if_true]
    rw [ih (i + 1) (score + 1) _ (fun p hp => hall p (List.mem_cons_of_mem q hp))]
    simp [correctRecords, List.append_assoc]
    omega

theorem runLoop_abort_at (d : Nat) (hd : 0 < d) :
    ∀ (k : Nat) (qs : List QuizItem) (rest : List (List (Nat × InputEv)))
      (i score : Nat) (recs : List AnswerRecord),
      k < qs.length →
      (∀ q ∈ qs.take k, q.correct ∈ (["A", "B", "C", "D"] : List String)) →
      runLoop d qs
          ((qs.take k).map (fun q => [(0, InputEv.line q.correct)])
            ++ [(0, InputEv.ctrlC)] :: rest) i score recs
        = .aborted (i + k) := by
  intro k
  induction k with
  | zero =>
    intro qs rest i score recs hk _
    cases qs with
    | nil => simp at hk
    | cons q qs =>
      rw [List.take_zero, List.map_nil, List.nil_append, runLoop]
      simp only [List.headD_cons]
      rw [gateLoop_first_ctrlC d hd]
      simp
  | succ k ih =>
    intro qs rest i score recs hk hall
    cases qs with
    | nil => simp at hk
    | cons q qs =>
      rw [List.take_succ_cons, List.map_cons, List.cons_append, runLoop]
      simp only [List.headD_cons, List.tail_cons]
      have hq := hall q (by simp [List.take_succ_cons])
      rw [gateLoop_first_valid d hd q.correct hq]
      simp only [eq_self_iff_true, if_true]
      rw [ih qs rest (i + 1) (score + 1) _
        (by simpa using hk)
        (fun p hp => hall p (by simp [List.take_succ_cons]; exact Or.inr hp))]
      congr 1
      omega

theorem runQuiz_eq_invalid (level : String) (n : Int) (qs : List QuizItem)
    (ss : List (List (Nat × InputEv)))
    (h1 : pyLower level ∉ difficultyLevels) :
    runQuiz level n qs ss = .invalidDifficulty := by
  unfold runQuiz
  rw [if_neg h1]

theorem runQuiz_eq_of_done (level : String) (n : Int) (qs : List QuizItem)
    (ss : List (List (Nat × InputEv))) (recs : List AnswerRecord) (score : Nat)
    (h1 : pyLower level ∈ difficultyLevels)
    (h2 : qs.isEmpty = false)
    (h3 : runLoop ((timeLimits.lookup (pyLower level)).getD 0) qs ss 1 0 []
            = .done recs score)
    (h4 : n ≠ 0) :
    runQuiz level n qs ss
      = .finished recs score n (percentageOf score n) (tierOf (percentageOf score n)) := by
  unfold runQuiz
  rw [if_pos h1, if_neg (by simp [h2]), h3]
  simp only []
  rw [if_neg h4]

theorem runQuiz_eq_of_done_zero (level : String) (qs : List QuizItem)
    (ss : List (List (Nat × InputEv))) (recs : List AnswerRecord) (score : Nat)
    (h1 : pyLower level ∈ difficultyLevels)
    (h2 : qs.isEmpty = false)
    (h3 : runLoop ((timeLimits.lookup (pyLower level)).getD 0) qs ss 1 0 []
            = .done recs score) :
    runQuiz level 0 qs ss = .crashedZeroDivision recs score := by
  unfold runQuiz
  rw [if_pos h1, if_neg (by simp [h2]), h3]
  simp

theorem runQuiz_eq_of_aborted (level : String) (n : Int) (qs : List QuizItem)
    (ss : List (List (Nat × InputEv))) (p : Nat)
    (h1 : pyLower level ∈ difficultyLevels)
    (h2 : qs.isEmpty = false)
    (h3 : runLoop ((timeLimits.lookup (pyLower level)).getD 0) qs ss 1 0 []
            = .aborted p) :
    runQuiz level n qs ss = .aborted p := by
  unfold runQuiz
  rw [if_pos h1, if_neg (by simp [h2]), h3]

theorem tierOf_eq_excellent {p : ℚ} (h : 90 ≤ p) : tierOf p = "excellent" := by
  unfold tierOf
  rw [if_pos h]

theorem tierOf_eq_good {p : ℚ} (h70 : 70 ≤ p) (h90 : p < 90) : tierOf p = "good" := by
  unfold tierOf
  rw [if_neg (by linarith), if_pos h70]

theorem tierOf_eq_needs {p : ℚ} (h50 : 50 ≤ p) (h70 : p < 70) :
    tierOf p = "needs practice" := by
  unfold tierOf
  rw [if_neg (by linarith), if_neg (by linarith), if_pos h50]

theorem tierOf_eq_review {p : ℚ} (h : p < 50) : tierOf p = "review recommended" := by
  unfold tierOf
  rw [if_neg (by linarith), if_neg (by linarith), if_neg (by linarith)]

/-- C1: the claim says the duration is a hard ceiling and a valid keystroke
arriving after expiry is discarded. The code violates this: an input read
that began before expiry returns the late keystroke and the loop accepts it,
so the gate resolves to that answer instead of the fixed TIMEOUT. With
duration 5 and the single keystroke b arriving at second 7 the gate answers
B; in a beginner session (duration 30) a keystroke at second 35 is recorded,
scored and reported as the answer of its question. -/
theorem quiz_c1_code_eval :
    gateLoop 5 0 none [(7, InputEv.line "b")] = GateOutcome.answered "B" ∧
    runQuiz "beginner" 1 [itemB] [[(35, InputEv.line "B")]]
      = SessionResult.finished [⟨1, "B", "B", "because"⟩] 1 1 100 "excellent" := by
  constructor
  · decide
  · rw [runQuiz_eq_of_done "beginner" 1 [itemB] [[(35, InputEv.line "B")]]
      [⟨1, "B", "B", "because"⟩] 1 (by decide) (by decide) (by decide) (by norm_num)]
    rw [show percentageOf 1 1 = 100 by norm_num [percentageOf]]
    rw [tierOf_eq_excellent (by norm_num)]

/-- C2: the claim says user_answer is always one of A, B, C, D or TIMEOUT.
The code violates this: when the timer expires right after an invalid
keystroke was read, the loop exits with the invalid string still stored and
records it, because the falsy check only replaces an empty or absent answer
with the TIMEOUT sentinel. With duration 30, keystroke X at second 3
(re-prompted) and X again at second 33, the record keeps user_answer X,
which is outside the allowed set. -/
theorem quiz_c2_code_eval :
    runQuiz "beginner" 1 [itemA] [[(3, InputEv.line "X"), (33, InputEv.line "X")]]
      = SessionResult.finished [⟨1, "X", "A", "because"⟩] 0 1 0 "review recommended" ∧
    "X" ∉ (["A", "B", "C", "D", "TIMEOUT"] : List String) := by
  constructor
  · rw [runQuiz_eq_of_done "beginner" 1 [itemA]
      [[(3, InputEv.line "X"), (33, InputEv.line "X")]]
      [⟨1, "X", "A", "because"⟩] 0 (by decide) (by decide) (by decide) (by norm_num)]
    rw [show percentageOf 0 1 = 0 by norm_num [percentageOf]]
    rw [tierOf_eq_review (by norm_num)]
  · decide

/-- C3: the claim says generate retries a bounded number of times and then
fails with a distinct InsufficientYield error. The code violates this: when
the collaborator always returns nonempty text with zero parseable items,
generate_quiz of quiz3.py and quiz5.py calls itself again unconditionally,
with no attempt counter and no InsufficientYield error. Formally, for every
recursion budget the run is still recursing when the budget is exhausted,
so no finite number of attempts ever produces a result or a failure. -/
theorem quiz_c3_code_eval :
    ∀ (fuel attempt : Nat),
      generateQuiz3Fuel (fun _ => "always unusable text") 1 attempt fuel
        = GenResult.outOfFuel := by
  intro fuel
  induction fuel with
  | zero => intro attempt; rfl
  | succ n ih =>
    intro attempt
    simp only [generateQuiz3Fuel]
    rw [if_neg (by decide), if_pos (by decide)]
    exact ih (attempt + 1)

/-- C4 counterexample: the claim says the correct field of every parsed item
is a member of the set A, B, C, D. The parser performs no membership check:
a candidate whose correct line names the letter e parses successfully and
its correct field is E, which is outside the set. -/
theorem quiz_c4_counterexample :
    parseCandidate "1. What?\nA) a\nB) b\nC) c\nD) d\nCorrect: e\nExplanation: x"
      = some ⟨"What?", "", [("A", "a"), ("B", "b"), ("C", "c"), ("D", "d")], "E", "x"⟩ ∧
    "E" ∉ (["A", "B", "C", "D"] : List String) := by decide

/-- C4 amended: for every parsed QuizItem the options mapping has exactly
the keys A, B, C, D in order, and the correct field is the uppercased strip
of the text extracted after the Correct marker, so it is case-normalized to
upper regardless of the case of the source text; however no membership check
in the set A, B, C, D is performed, so the correct field can be any string. -/
theorem quiz_c4_amended (q : String) (item : QuizItem)
    (h : parseCandidate q = some item) :
    item.options.map Prod.fst = ["A", "B", "C", "D"] ∧
    ∃ raw, splitSecond "Correct: " ((linesOf q).getD 5 "") = some raw ∧
      item.correct = pyUpper (pyStrip raw) := by
  obtain ⟨-, qt, optA, optB, optC, optD, corr, expl, -, -, -, -, -, e5, -, hitem⟩ :=
    parseCandidate_some_spec q item h
  subst hitem
  exact ⟨rfl, corr, e5, rfl⟩

/-- C4 witness: the amended statement at a concrete candidate whose correct
line carries a lowercase letter c, which is normalized to uppercase C. -/
theorem quiz_c4_witness :
    (QuizItem.mk "What?" "" [("A", "a"), ("B", "b"), ("C", "c"), ("D", "d")] "C" "x").options.map
        Prod.fst = ["A", "B", "C", "D"] ∧
    ∃ raw, splitSecond "Correct: "
        ((linesOf "1. What?\nA) a\nB) b\nC) c\nD) d\nCorrect: c\nExplanation: x").getD 5 "")
        = some raw ∧
      (QuizItem.mk "What?" "" [("A", "a"), ("B", "b"), ("C", "c"), ("D", "d")] "C" "x").correct
        = pyUpper (pyStrip raw) :=
  quiz_c4_amended "1. What?\nA) a\nB) b\nC) c\nD) d\nCorrect: c\nExplanation: x"
    (QuizItem.mk "What?" "" [("A", "a"), ("B", "b"), ("C", "c"), ("D", "d")] "C" "x")
    (by decide)

/-- C5 counterexample: the claim says a candidate with an option line not
beginning with its letter marker or a correct line not beginning with the
Correct marker is rejected whole. The quiz1.py parser never checks markers:
this candidate has no option markers and no Correct marker, yet it parses
into an item whose fields are garbage slices of the unmarked lines. -/
theorem quiz_c5_counterexample :
    splitSecond "A) " "foo" = none ∧
    splitSecond "Correct: " "Wrong B" = none ∧
    parseCandidate1 "1. What?\nfoo\nbar\nbaz\nqux\nWrong B\nNo expl"
      = some ⟨"1. What?", "", [("A", ""), ("B", ""), ("C", ""), ("D", "")],
              "WRONG B", "No expl"⟩ := by decide

/-- C5 amended: in the quiz.py parser the claim holds with markers read as
substrings: a candidate with fewer than 7 lines, or any field line in which
the required marker does not occur, is rejected whole, and a parsed item is
always fully populated from successful extractions of all seven fields. The
quiz1.py parser, by contrast, rejects only candidates with fewer than 7
nonempty lines and never verifies any marker. -/
theorem quiz_c5_amended :
    (∀ q : String,
      ((linesOf q).length < 7 ∨
       splitSecond ". " ((linesOf q).getD 0 "") = none ∨
       splitSecond "A) " ((linesOf q).getD 1 "") = none ∨
       splitSecond "B) " ((linesOf q).getD 2 "") = none ∨
       splitSecond "C) " ((linesOf q).getD 3 "") = none ∨
       splitSecond "D) " ((linesOf q).getD 4 "") = none ∨
       splitSecond "Correct: " ((linesOf q).getD 5 "") = none ∨
       splitSecond "Explanation: " ((linesOf q).getD 6 "") = none) →
      parseCandidate q = none) ∧
    (∀ (q : String) (item : QuizItem),
      parseCandidate q = some item →
      7 ≤ (linesOf q).length ∧
      ∃ qt optA optB optC optD corr expl,
        splitSecond ". " ((linesOf q).getD 0 "") = some qt ∧
        splitSecond "A) " ((linesOf q).getD 1 "") = some optA ∧
        splitSecond "B) " ((linesOf q).getD 2 "") = some optB ∧
        splitSecond "C) " ((linesOf q).getD 3 "") = some optC ∧
        splitSecond "D) " ((linesOf q).getD 4 "") = some optD ∧
        splitSecond "Correct: " ((linesOf q).getD 5 "") = some corr ∧
        splitSecond "Explanation: " ((linesOf q).getD 6 "") = some expl ∧
        item = { question := pyStrip qt, code := "",
                 options := [("A", pyStrip optA), ("B", pyStrip optB),
                             ("C", pyStrip optC), ("D", pyStrip optD)],
                 correct := pyUpper (pyStrip corr),
                 explanation := pyStrip expl }) ∧
    (∀ q : String, 7 ≤ (linesOf1 q).length → (parseCandidate1 q).isSome = true) := by
  refine ⟨?_, fun q item h => parseCandidate_some_spec q item h, ?_⟩
  · intro q hmiss
    cases hpc : parseCandidate q with
    | none => rfl
    | some item =>
      exfalso
      obtain ⟨hlen, qt, optA, optB, optC, optD, corr, expl,
        e0, e1, e2, e3, e4, e5, e6, -⟩ := parseCandidate_some_spec q item hpc
      rcases hmiss with h | h | h | h | h | h | h | h
      · omega
      · rw [e0] at h; exact Option.noConfusion h
      · rw [e1] at h; exact Option.noConfusion h
      · rw [e2] at h; exact Option.noConfusion h
      · rw [e3] at h; exact Option.noConfusion h
      · rw [e4] at h; exact Option.noConfusion h
      · rw [e5] at h; exact Option.noConfusion h
      · rw [e6] at h; exact Option.noConfusion h
  · intro q h
    unfold parseCandidate1
    rw [if_neg (by omega)]
    rfl

/-- C5 witness: the amended statement applied at concrete candidates: a
three-line candidate is rejected by the quiz.py parser, a well-formed
candidate parses into a fully populated item, and a marker-less seven-line
candidate is still accepted by the quiz1.py parser. -/
theorem quiz_c5_witness :
    parseCandidate "1. short\nA) a\nB) b" = none ∧
    (7 ≤ (linesOf "1. W?\nA) a\nB) b\nC) c\nD) d\nCorrect: a\nExplanation: x").length ∧
      ∃ qt optA optB optC optD corr expl,
        splitSecond ". "
          ((linesOf "1. W?\nA) a\nB) b\nC) c\nD) d\nCorrect: a\nExplanation: x").getD 0 "")
          = some qt ∧
        splitSecond "A) "
          ((linesOf "1. W?\nA) a\nB) b\nC) c\nD) d\nCorrect: a\nExplanation: x").getD 1 "")
          = some optA ∧
        splitSecond "B) "
          ((linesOf "1. W?\nA) a\nB) b\nC) c\nD) d\nCorrect: a\nExplanation: x").getD 2 "")
          = some optB ∧
        splitSecond "C) "
          ((linesOf "1. W?\nA) a\nB) b\nC) c\nD) d\nCorrect: a\nExplanation: x").getD 3 "")
          = some optC ∧
        splitSecond "D) "
          ((linesOf "1. W?\nA) a\nB) b\nC) c\nD) d\nCorrect: a\nExplanation: x").getD 4 "")
          = some optD ∧
        splitSecond "Correct: "
          ((linesOf "1. W?\nA) a\nB) b\nC) c\nD) d\nCorrect: a\nExplanation: x").getD 5 "")
          = some corr ∧
        splitSecond "Explanation: "
          ((linesOf "1. W?\nA) a\nB) b\nC) c\nD) d\nCorrect: a\nExplanation: x").getD 6 "")
          = some expl ∧
        (QuizItem.mk "W?" "" [("A", "a"), ("B", "b"), ("C", "c"), ("D", "d")] "A" "x")
          = { question := pyStrip qt, code := "",
              options := [("A", pyStrip optA), ("B", pyStrip optB),
                          ("C", pyStrip optC), ("D", pyStrip optD)],
              correct := pyUpper (pyStrip corr),
              explanation := pyStrip expl }) ∧
    (parseCandidate1 "2. Also\nlineone\nlinetwo\nlinethree\nlinefour\nlinefive\nlinesix").isSome
      = true :=
  ⟨quiz_c5_amended.1 "1. short\nA) a\nB) b" (Or.inl (by decide)),
   quiz_c5_amended.2.1 "1. W?\nA) a\nB) b\nC) c\nD) d\nCorrect: a\nExplanation: x"
     (QuizItem.mk "W?" "" [("A", "a"), ("B", "b"), ("C", "c"), ("D", "d")] "A" "x")
     (by decide),
   quiz_c5_amended.2.2 "2. Also\nlineone\nlinetwo\nlinethree\nlinefour\nlinefive\nlinesix"
     (by decide)⟩

/-- C6: local recovery and independence of the batch loop. When exactly one
candidate of a batch fails to parse and every other candidate parses, the
loop returns the parsed items of the other candidates unchanged and in
order, the number of skipped candidates is exactly 1 (0 without the bad
candidate), and the returned item count is the batch size minus one. The
statement is generic in the per-candidate parser, so it covers the identical
loops of quiz.py (parseCandidate), quiz1.py, quiz3.py and quiz5.py. -/
theorem quiz_c6 (pc : String → Option QuizItem) (pre post : List String) (b : String)
    (hgood : ∀ c ∈ pre ++ post, (pc c).isSome = true)
    (hb : pc b = none) :
    (parseLoop pc (pre ++ b :: post)).1 = (parseLoop pc (pre ++ post)).1 ∧
    (parseLoop pc (pre ++ b :: post)).2 = 1 ∧
    (parseLoop pc (pre ++ post)).2 = 0 ∧
    (parseLoop pc (pre ++ b :: post)).1.length = (pre ++ post).length := by
  have hpre : pre.filter (fun c => (pc c).isNone) = [] :=
    filter_none_nil pc _ (fun c hc => hgood c (List.mem_append_left _ hc))
  have hpost : post.filter (fun c => (pc c).isNone) = [] :=
    filter_none_nil pc _ (fun c hc => hgood c (List.mem_append_right _ hc))
  have hfm : (pre ++ b :: post).filterMap pc = (pre ++ post).filterMap pc := by
    simp [List.filterMap_append, List.filterMap_cons, hb]
  rw [parseLoop_spec pc (pre ++ b :: post), parseLoop_spec pc (pre ++ post)]
  refine ⟨hfm, ?_, ?_, ?_⟩
  · simp [List.filter_append, List.filter_cons, hb, hpre, hpost]
  · simp [List.filter_append, hpre, hpost]
  · rw [hfm]
    exact filterMap_all_some pc _ hgood

/-- C6 witness: a three-candidate batch whose middle candidate is garbage
yields the two good items, one rejection, and no rejection without it. -/
theorem quiz_c6_witness :
    (parseLoop parseCandidate
        (["1. W?\nA) a\nB) b\nC) c\nD) d\nCorrect: A\nExplanation: x"]
          ++ "garbage" :: ["2. V?\nA) a\nB) b\nC) c\nD) d\nCorrect: b\nExplanation: y"])).1
      = (parseLoop parseCandidate
          (["1. W?\nA) a\nB) b\nC) c\nD) d\nCorrect: A\nExplanation: x"]
            ++ ["2. V?\nA) a\nB) b\nC) c\nD) d\nCorrect: b\nExplanation: y"])).1 ∧
    (parseLoop parseCandidate
        (["1. W?\nA) a\nB) b\nC) c\nD) d\nCorrect: A\nExplanation: x"]
          ++ "garbage" :: ["2. V?\nA) a\nB) b\nC) c\nD) d\nCorrect: b\nExplanation: y"])).2
      = 1 ∧
    (parseLoop parseCandidate
        (["1. W?\nA) a\nB) b\nC) c\nD) d\nCorrect: A\nExplanation: x"]
          ++ ["2. V?\nA) a\nB) b\nC) c\nD) d\nCorrect: b\nExplanation: y"])).2 = 0 ∧
    (parseLoop parseCandidate
        (["1. W?\nA) a\nB) b\nC) c\nD) d\nCorrect: A\nExplanation: x"]
          ++ "garbage" :: ["2. V?\nA) a\nB) b\nC) c\nD) d\nCorrect: b\nExplanation: y"])).1.length
      = (["1. W?\nA) a\nB) b\nC) c\nD) d\nCorrect: A\nExplanation: x"]
          ++ ["2. V?\nA) a\nB) b\nC) c\nD) d\nCorrect: b\nExplanation: y"]).length :=
  quiz_c6 parseCandidate
    ["1. W?\nA) a\nB) b\nC) c\nD) d\nCorrect: A\nExplanation: x"]
    ["2. V?\nA) a\nB) b\nC) c\nD) d\nCorrect: b\nExplanation: y"]
    "garbage" (by decide) (by decide)

/-- C7 counterexample: the claim says run fails with a ValidationError and
the session never starts when count is non-positive. The code never checks
the count: with count -1 and one generated question the session starts, the
question is asked and answered, and the summary is produced with a negative
percentage. -/
theorem quiz_c7_counterexample :
    runQuiz "beginner" (-1) [itemA] [[(0, InputEv.line "A")]]
      = SessionResult.finished [⟨1, "A", "A", "because"⟩] 1 (-1) (-100)
          "review recommended" ∧
    (-1 : Int) ≤ 0 := by
  constructor
  · rw [runQuiz_eq_of_done "beginner" (-1) [itemA] [[(0, InputEv.line "A")]]
      [⟨1, "A", "A", "because"⟩] 1 (by decide) (by decide) (by decide) (by norm_num)]
    rw [show percentageOf 1 (-1) = -100 by norm_num [percentageOf]]
    rw [tierOf_eq_review (by norm_num)]
  · norm_num

/-- C7 amended: run_quiz returns on the validation error path, with the
session never starting, whenever the lowercased level is outside the fixed
set beginner, intermediate, advanced; the count is never validated, so with
a non-positive count the session still starts whenever generation yields
questions, and a count of zero later crashes with a division error in the
percentage computation after the score was already displayed. -/
theorem quiz_c7_amended :
    (∀ (level : String) (n : Int) (qs : List QuizItem)
        (ss : List (List (Nat × InputEv))),
      pyLower level ∉ difficultyLevels →
      runQuiz level n qs ss = SessionResult.invalidDifficulty) ∧
    runQuiz "beginner" 0 [itemA] [[(0, InputEv.line "A")]]
      = SessionResult.crashedZeroDivision [⟨1, "A", "A", "because"⟩] 1 := by
  constructor
  · intro level n qs ss h
    exact runQuiz_eq_invalid level n qs ss h
  · exact runQuiz_eq_of_done_zero "beginner" [itemA] [[(0, InputEv.line "A")]]
      [⟨1, "A", "A", "because"⟩] 1 (by decide) (by decide) (by decide)

/-- C7 witness: the amended statement at the unknown level expert, on which
the session never starts. -/
theorem quiz_c7_witness :
    runQuiz "expert" 3 [] [] = SessionResult.invalidDifficulty :=
  quiz_c7_amended.1 "expert" 3 [] [] (by decide)

/-- C8: the qualitative tier is selected from the percentage by fixed
thresholds with the highest matching threshold winning, and a 2-of-4
session has percentage exactly 50 and tier needs practice, shown both on
the percentage function and on a full four-question beginner session with
correct answers on questions 1 and 3 only. -/
theorem quiz_c8 (p : ℚ) :
    (percentageOf 2 4 = 50 ∧ tierOf (percentageOf 2 4) = "needs practice") ∧
    runQuiz "beginner" 4 [itemA, itemB, itemA, itemB]
        [[(0, InputEv.line "A")], [(0, InputEv.line "A")],
         [(0, InputEv.line "A")], [(0, InputEv.line "A")]]
      = SessionResult.finished
          [⟨1, "A", "A", "because"⟩, ⟨2, "A", "B", "because"⟩,
           ⟨3, "A", "A", "because"⟩, ⟨4, "A", "B", "because"⟩] 2 4 50
          "needs practice" ∧
    (90 ≤ p → tierOf p = "excellent") ∧
    (70 ≤ p → p < 90 → tierOf p = "good") ∧
    (50 ≤ p → p < 70 → tierOf p = "needs practice") ∧
    (p < 50 → tierOf p = "review recommended") := by
  have h50 : percentageOf 2 4 = 50 := by norm_num [percentageOf]
  refine ⟨⟨h50, ?_⟩, ?_, fun h => tierOf_eq_excellent h,
    fun h1 h2 => tierOf_eq_good h1 h2,
    fun h1 h2 => tierOf_eq_needs h1 h2,
    fun h => tierOf_eq_review h⟩
  · rw [h50]
    exact tierOf_eq_needs (by norm_num) (by norm_num)
  · rw [runQuiz_eq_of_done "beginner" 4 [itemA, itemB, itemA, itemB]
      [[(0, InputEv.line "A")], [(0, InputEv.line "A")],
       [(0, InputEv.line "A")], [(0, InputEv.line "A")]]
      [⟨1, "A", "A", "because"⟩, ⟨2, "A", "B", "because"⟩,
       ⟨3, "A", "A", "because"⟩, ⟨4, "A", "B", "because"⟩] 2
      (by decide) (by decide) (by decide) (by norm_num)]
    rw [h50, tierOf_eq_needs (by norm_num) (by norm_num)]

/-- C8 witness: the threshold clauses applied at representative percentages
inside each band. -/
theorem quiz_c8_witness :
    tierOf 95 = "excellent" ∧ tierOf 75 = "good" ∧
    tierOf 55 = "needs practice" ∧ tierOf 10 = "review recommended" :=
  ⟨(quiz_c8 95).2.2.1 (by norm_num),
   (quiz_c8 75).2.2.2.1 (by norm_num) (by norm_num),
   (quiz_c8 55).2.2.2.2.1 (by norm_num) (by norm_num),
   (quiz_c8 10).2.2.2.2.2 (by norm_num)⟩

/-- C9: a keyboard interrupt during question k+1, after k questions were
answered, makes the session return at once with the abort outcome: the
result carries no records, no score, no summary and no feedback, and the
number of presented questions is exactly k+1, so no later question is ever
presented. -/
theorem quiz_c9 (qs : List QuizItem) (k : Nat) (m : Int)
    (rest : List (List (Nat × InputEv)))
    (hk : k < qs.length)
    (hcorr : ∀ q ∈ qs.take k, q.correct ∈ (["A", "B", "C", "D"] : List String)) :
    runQuiz "beginner" m qs
        ((qs.take k).map (fun q => [(0, InputEv.line q.correct)])
          ++ [(0, InputEv.ctrlC)] :: rest)
      = SessionResult.aborted (k + 1) := by
  have h2 : qs.isEmpty = false := by
    cases qs with
    | nil => simp at hk
    | cons q qs => rfl
  have h3 := runLoop_abort_at ((timeLimits.lookup (pyLower "beginner")).getD 0)
    (by decide) k qs rest 1 0 [] hk hcorr
  rw [runQuiz_eq_of_aborted "beginner" m qs _ (1 + k) (by decide) h2 h3]
  congr 1
  omega

/-- C9 witness: a two-question beginner session answered correctly on the
first question and interrupted on the second aborts with two questions
presented. -/
theorem quiz_c9_witness :
    runQuiz "beginner" 2 [itemA, itemB]
        (([itemA, itemB].take 1).map (fun q => [(0, InputEv.line q.correct)])
          ++ [(0, InputEv.ctrlC)] :: [])
      = SessionResult.aborted 2 :=
  quiz_c9 [itemA, itemB] 1 2 [] (by decide) (by decide)

/-- C10: the session presents every parsed item while the score denominator
and percentage use the requested count: a session over any nonempty list of
items, all answered correctly, finishes with one record per item and score
equal to the number of items, while the denominator is the requested count
and the percentage is score over that count times 100; in particular with 2
items and requested count 1 the percentage is 200, above 100. -/
theorem quiz_c10 (qs : List QuizItem) (m : Int) (h0 : qs ≠ []) (hm : m ≠ 0)
    (hcorr : ∀ q ∈ qs, q.correct ∈ (["A", "B", "C", "D"] : List String)) :
    runQuiz "beginner" m qs (qs.map fun q => [(0, InputEv.line q.correct)])
      = SessionResult.finished (correctRecords qs 1) qs.length m
          (percentageOf qs.length m) (tierOf (percentageOf qs.length m)) ∧
    (correctRecords qs 1).length = qs.length ∧
    percentageOf 2 1 = 200 ∧ (100 : ℚ) < percentageOf 2 1 := by
  refine ⟨?_, correctRecords_length qs 1, by norm_num [percentageOf],
    by norm_num [percentageOf]⟩
  have h2 : qs.isEmpty = false := by
    cases qs with
    | nil => exact absurd rfl h0
    | cons q qs => rfl
  have h3 := runLoop_all_correct ((timeLimits.lookup (pyLower "beginner")).getD 0)
    (by decide) qs 1 0 [] hcorr
  simp only [List.nil_append, Nat.zero_add] at h3
  rw [runQuiz_eq_of_done "beginner" m qs _ (correctRecords qs 1) qs.length
    (by decide) h2 h3 hm]

/-- C10 witness: two parsed items with requested count 1: both are asked,
the score is 2 of 1, and the percentage is 200, above 100. -/
theorem quiz_c10_witness :
    runQuiz "beginner" 1 [itemA, itemB]
        ([itemA, itemB].map fun q => [(0, InputEv.line q.correct)])
      = SessionResult.finished (correctRecords [itemA, itemB] 1) 2 1
          (percentageOf 2 1) (tierOf (percentageOf 2 1)) ∧
    (correctRecords [itemA, itemB] 1).length = 2 ∧
    percentageOf 2 1 = 200 ∧ (100 : ℚ) < percentageOf 2 1 :=
  quiz_c10 [itemA, itemB] 1 (by decide) (by norm_num) (by decide)
